import Mathlib

/-!
Verification of the kubesecret_rota secret-expiry checker.

The Go source (`main.go`) scans cluster secrets for an expiry annotation,
evaluates multi-format expiry values, resolves the Deployments whose pods
volume-mount an expired secret, and triggers a rollout restart for each.
This file gives a shallow embedding of that code and proves the spec claims
about it.  Times are modelled as `Int` nanoseconds since the Unix epoch
(Go's `time.Time` comparison `now.After(t)` becomes `now > t`).
-/

/-! ## Models of the Go standard-library time parsers

`isSecretExpired` calls `time.Parse` with three fixed layouts and
`time.ParseDuration`.  These library functions are modelled below, faithful
to the Go implementations on the syntax that matters here (fixed-width
numeric fields, optional fractional seconds, the duration grammar with its
sign, decimal point and unit table).  Integer overflow checking of
`time.ParseDuration` is not modelled. -/

deriving instance DecidableEq for Except

def digitVal (c : Char) : Nat := c.toNat - 48

/-- Parse exactly `n` leading decimal digits (Go `getnum` with fixed width). -/
def parseFixedNat : Nat → List Char → Option (Nat × List Char)
  | 0, cs => some (0, cs)
  | _ + 1, [] => none
  | n + 1, c :: cs =>
    if c.isDigit then
      match parseFixedNat n cs with
      | some (v, rest) => some (digitVal c * 10 ^ n + v, rest)
      | none => none
    else none

def expectChar (c : Char) : List Char → Option (List Char)
  | [] => none
  | c' :: cs => if c' = c then some cs else none

def isLeapYear (y : Nat) : Bool := y % 4 = 0 ∧ (y % 100 ≠ 0 ∨ y % 400 = 0)

def daysInMonth (y m : Nat) : Nat :=
  if m = 2 then (if isLeapYear y then 29 else 28)
  else if m = 4 ∨ m = 6 ∨ m = 9 ∨ m = 11 then 30
  else 31

def validDate (y mo d : Nat) : Prop :=
  1 ≤ mo ∧ mo ≤ 12 ∧ 1 ≤ d ∧ d ≤ daysInMonth y mo

instance (y mo d : Nat) : Decidable (validDate y mo d) := by
  unfold validDate; infer_instance

/-- Days from the Unix epoch to civil date y-mo-d (Hinnant's algorithm). -/
def daysFromCivil (y : Int) (mo d : Nat) : Int :=
  let y' := if mo ≤ 2 then y - 1 else y
  let era := Int.fdiv y' 400
  let yoe := y' - era * 400
  let mp : Int := if mo > 2 then (mo : Int) - 3 else (mo : Int) + 9
  let doy := (153 * mp + 2) / 5 + (d : Int) - 1
  let doe := yoe * 365 + yoe / 4 - yoe / 100 + doy
  era * 146097 + doe - 719468

/-- Epoch nanoseconds for a civil date-time with a UTC offset in seconds. -/
def epochNs (y mo d h mi s : Nat) (fracNs offSec : Int) : Int :=
  (daysFromCivil (y : Int) mo d * 86400 + (h : Int) * 3600 + (mi : Int) * 60
    + (s : Int) - offSec) * 1000000000 + fracNs

/-- Optional fractional seconds: Go's `time.Parse` accepts `.` or `,`
followed by digits after the seconds field even when the layout has no
fractional-second element; the first nine digits give nanoseconds. -/
def parseOptFrac (cs : List Char) : Int × List Char :=
  match cs with
  | c :: c2 :: rest =>
    if (c = '.' ∨ c = ',') ∧ c2.isDigit then
      let ds := (c2 :: rest).takeWhile Char.isDigit
      let rest' := (c2 :: rest).dropWhile Char.isDigit
      let ds9 := ds.take 9
      let v : Int := ds9.foldl (fun a c => a * 10 + (digitVal c : Int)) 0
      (v * (10 : Int) ^ (9 - ds9.length), rest')
    else (0, cs)
  | _ => (0, cs)

/-- A numeric time-zone suffix: `Z` or `±hh:mm`. Returns the offset in
seconds and the remaining input. -/
def parseZone : List Char → Option (Int × List Char)
  | [] => none
  | c :: cs =>
    if c = 'Z' then some (0, cs)
    else if c = '+' ∨ c = '-' then
      match parseFixedNat 2 cs with
      | some (hh, cs1) =>
        match expectChar ':' cs1 with
        | some cs2 =>
          match parseFixedNat 2 cs2 with
          | some (mm, cs3) =>
            if hh ≤ 23 ∧ mm ≤ 59 then
              let off : Int := (hh : Int) * 3600 + (mm : Int) * 60
              some (if c = '-' then -off else off, cs3)
            else none
          | none => none
        | none => none
      | none => none
    else none

/-- `time.Parse` with layout `"2006-01-02"`: a calendar date, midnight UTC. -/
def goParseDateOnly (cs : List Char) : Option Int := do
  let (y, cs) ← parseFixedNat 4 cs
  let cs ← expectChar '-' cs
  let (mo, cs) ← parseFixedNat 2 cs
  let cs ← expectChar '-' cs
  let (d, cs) ← parseFixedNat 2 cs
  if cs = [] ∧ validDate y mo d then
    pure (epochNs y mo d 0 0 0 0 0)
  else none

/-- `time.Parse` with layout `"2006-01-02T15:04:05"`: a date-time without a
zone, interpreted as UTC. -/
def goParseDateTime (cs : List Char) : Option Int := do
  let (y, cs) ← parseFixedNat 4 cs
  let cs ← expectChar '-' cs
  let (mo, cs) ← parseFixedNat 2 cs
  let cs ← expectChar '-' cs
  let (d, cs) ← parseFixedNat 2 cs
  let cs ← expectChar 'T' cs
  let (h, cs) ← parseFixedNat 2 cs
  let cs ← expectChar ':' cs
  let (mi, cs) ← parseFixedNat 2 cs
  let cs ← expectChar ':' cs
  let (s, cs) ← parseFixedNat 2 cs
  let (fns, cs) := parseOptFrac cs
  if cs = [] ∧ validDate y mo d ∧ h ≤ 23 ∧ mi ≤ 59 ∧ s ≤ 59 then
    pure (epochNs y mo d h mi s fns 0)
  else none

/-- `time.Parse` with layout `time.RFC3339`: a date-time followed by a
mandatory numeric zone (`Z` or `±hh:mm`). -/
def goParseRFC3339 (cs : List Char) : Option Int := do
  let (y, cs) ← parseFixedNat 4 cs
  let cs ← expectChar '-' cs
  let (mo, cs) ← parseFixedNat 2 cs
  let cs ← expectChar '-' cs
  let (d, cs) ← parseFixedNat 2 cs
  let cs ← expectChar 'T' cs
  let (h, cs) ← parseFixedNat 2 cs
  let cs ← expectChar ':' cs
  let (mi, cs) ← parseFixedNat 2 cs
  let cs ← expectChar ':' cs
  let (s, cs) ← parseFixedNat 2 cs
  let (fns, cs) := parseOptFrac cs
  let (off, cs) ← parseZone cs
  if cs = [] ∧ validDate y mo d ∧ h ≤ 23 ∧ mi ≤ 59 ∧ s ≤ 59 then
    pure (epochNs y mo d h mi s fns off)
  else none

def LayoutRFC3339 : String := "2006-01-02T15:04:05Z07:00"
def LayoutDateTime : String := "2006-01-02T15:04:05"
def LayoutDateOnly : String := "2006-01-02"

/-- The layout list of `isSecretExpired` (`main.go` line 98). -/
def layouts : List String := [LayoutRFC3339, LayoutDateTime, LayoutDateOnly]

/-- `time.Parse layout value` for the three layouts the program uses. -/
def goTimeParse (layout value : String) : Option Int :=
  if layout = LayoutRFC3339 then goParseRFC3339 value.data
  else if layout = LayoutDateTime then goParseDateTime value.data
  else if layout = LayoutDateOnly then goParseDateOnly value.data
  else none

/-! ### `time.ParseDuration` -/

/-- Consume leading decimal digits, returning value, digit count, rest
(Go `leadingInt`, overflow not modelled). -/
def leadingIntAux : List Char → Nat → Nat → Nat × Nat × List Char
  | [], v, n => (v, n, [])
  | c :: cs, v, n =>
    if c.isDigit then leadingIntAux cs (v * 10 + digitVal c) (n + 1)
    else (v, n, c :: cs)

/-- The unit substring: characters up to the next digit or decimal point. -/
def spanUnit : List Char → List Char × List Char
  | [] => ([], [])
  | c :: cs =>
    if c.isDigit ∨ c = '.' then ([], c :: cs)
    else
      let (u, rest) := spanUnit cs
      (c :: u, rest)

/-- Go's duration unit table, values in nanoseconds. -/
def durUnits : List (List Char × Int) :=
  [(['n', 's'], 1), (['u', 's'], 1000), (['µ', 's'], 1000), (['μ', 's'], 1000),
   (['m', 's'], 1000000), (['s'], 1000000000), (['m'], 60000000000),
   (['h'], 3600000000000)]

def lookupUnit (u : List Char) : Option Int :=
  (durUnits.find? (fun p => p.1 = u)).map (fun p => p.2)

/-- One or more `number[.fraction]unit` terms (the loop of
`time.ParseDuration`); `fuel` bounds recursion, each term consumes at least
one character. -/
def parseDurTerms : Nat → List Char → Option Int
  | 0, _ => none
  | _, [] => some 0
  | fuel + 1, s =>
    let (v, npre, s1) := leadingIntAux s 0 0
    let (f, scale, npost, s2) :=
      match s1 with
      | '.' :: cs =>
        let (fv, fn, rest) := leadingIntAux cs 0 0
        (fv, (10 : Int) ^ fn, fn, rest)
      | _ => (0, 1, 0, s1)
    if npre = 0 ∧ npost = 0 then none
    else
      let (u, s3) := spanUnit s2
      if u = [] then none
      else
        match lookupUnit u with
        | none => none
        | some unit =>
          match parseDurTerms fuel s3 with
          | none => none
          | some restVal => some ((v : Int) * unit + (f : Int) * unit / scale + restVal)

/-- Model of Go `time.ParseDuration`: optional sign, the literal `"0"`, or a
sequence of number-unit terms.  Returns nanoseconds. -/
def goParseDuration (str : String) : Option Int :=
  let cs := str.data
  let neg := cs.head? = some '-'
  let cs1 := if cs.head? = some '-' ∨ cs.head? = some '+' then cs.tail else cs
  if cs1 = ['0'] then some 0
  else if cs1 = [] then none
  else
    match parseDurTerms (cs1.length + 1) cs1 with
    | none => none
    | some d => some (if neg then -d else d)

/-! ## Data model (from the Go code's Kubernetes types) -/

/-- An owner reference of a pod: kind, name, and the optional controller
flag (`*bool` in Go, `none` models nil). -/
structure OwnerReference where
  kind : String
  name : String
  controller : Option Bool
  deriving DecidableEq, Repr

/-- A pod volume; `secretName` is `some n` when the volume has a Secret
source with SecretName `n` (`vol.Secret != nil`), else `none`. -/
structure Volume where
  secretName : Option String
  deriving DecidableEq, Repr

/-- A pod: namespace (`ns`), name, volumes and owner references. -/
structure Pod where
  ns : String
  name : String
  volumes : List Volume
  ownerReferences : List OwnerReference
  deriving DecidableEq, Repr

/-- A secret: namespace (`ns`), name, its annotations map (association
list) and its creation timestamp in epoch nanoseconds. -/
structure Secret where
  ns : String
  name : String
  annotations : List (String × String)
  creationTimestamp : Int
  deriving DecidableEq, Repr

/-- Go map read `m[k]` with the `ok` flag: first matching key. -/
def mapLookup : List (String × String) → String → Option String
  | [], _ => none
  | (k', v') :: rest, k => if k' = k then some v' else mapLookup rest k

/-- `ExpiryAnnotationKey` of `main.go` line 20. -/
def ExpiryAnnotationKey : String := "secret-expiry"

/-- Try each layout in order; first successful parse wins
(the loop at `main.go` lines 99-103). -/
def tryLayouts : List String → String → Option Int
  | [], _ => none
  | l :: ls, v =>
    match goTimeParse l v with
    | some t => some t
    | none => tryLayouts ls v

/-- `isSecretExpired` (`main.go` lines 96-113): absolute layouts first, then
relative seconds since creation, else an error carrying the raw value. -/
def isSecretExpired (secret : Secret) (expiryRaw : String) (now : Int) :
    Except String Bool :=
  match tryLayouts layouts expiryRaw with
  | some t => .ok (decide (now > t))
  | none =>
    match goParseDuration (expiryRaw ++ "s") with
    | some secs => .ok (decide (now > secret.creationTimestamp + secs))
    | none => .error ("unknown expiry format: " ++ expiryRaw)

/-! ## Consumer resolution and the scan cycle (`checkSecrets`,
`handleExpiredSecret`, `podUsesSecret`, `extractDeploymentName`) -/

/-- `podUsesSecret` (`main.go` lines 150-157): the pod has a volume with a
Secret source naming the secret. -/
def podUsesSecret (pod : Pod) (secretName : String) : Bool :=
  pod.volumes.any (fun vol =>
    match vol.secretName with
    | some n => n = secretName
    | none => false)

/-- Model of Go `strings.Split` for a single-character separator: the
segments around each separator occurrence (`[""]` on empty input). -/
def splitOnChar (sep : Char) : List Char → List (List Char)
  | [] => [[]]
  | c :: rest =>
    match splitOnChar sep rest with
    | [] => if c = sep then [[], []] else [[c]]
    | h :: t => if c = sep then [] :: h :: t else (c :: h) :: t

/-- Model of Go `strings.Join` with a single-character separator. -/
def joinWith (sep : Char) : List (List Char) → List Char
  | [] => []
  | [x] => x
  | x :: xs => x ++ sep :: joinWith sep xs

/-- `extractDeploymentName` (`main.go` lines 160-166): split the ReplicaSet
name on hyphens, drop the last segment, rejoin; empty if fewer than two
segments. -/
def extractDeploymentName (rsName : String) : String :=
  let parts := splitOnChar '-' rsName.data
  if parts.length < 2 then ""
  else String.mk (joinWith '-' parts.dropLast)

/-- Insertion into the `affectedDeployments` set (`map[string]bool` in Go:
a key is present at most once). -/
def insertNew (acc : List String) (x : String) : List String :=
  if x ∈ acc then acc else acc ++ [x]

/-- The collection loop of `handleExpiredSecret` (`main.go` lines 122-136):
for each pod using the secret, each controller ReplicaSet owner contributes
its derived Deployment name when nonempty.  Go map iteration order is
unspecified; the model fixes insertion order, which the claims do not
depend on. -/
def collectAffected (pods : List Pod) (secretName : String) : List String :=
  pods.foldl
    (fun acc pod =>
      if podUsesSecret pod secretName then
        pod.ownerReferences.foldl
          (fun acc2 owner =>
            if owner.kind = "ReplicaSet" ∧ owner.controller = some true then
              let deploymentName := extractDeploymentName owner.name
              if deploymentName ≠ "" then insertNew acc2 deploymentName else acc2
            else acc2)
          acc
      else acc)
    []

/-- Observable events of one scan cycle: log lines and control-plane calls. -/
inductive Event where
  | formatError (ns name msg : String)
  | expiredLog (ns name : String)
  | handleError (ns name msg : String)
  | podListCall (ns : String)
  | restartCall (ns dep : String)
  | restartFailed (ns dep msg : String)
  deriving DecidableEq, Repr

/-- The control-plane environment of one cycle: the secret list result, the
cluster's pods, and injected failures for the per-namespace pod list and the
per-deployment restart. -/
structure Env where
  listSecretsResult : Except String (List Secret)
  pods : List Pod
  podListError : String → Option String
  restartError : String → String → Option String

/-- Listing pods in a namespace: the API server returns exactly the pods of
that namespace, or the injected error. -/
def envListPods (env : Env) (ns : String) : Except String (List Pod) :=
  match env.podListError ns with
  | some e => .error e
  | none => .ok (env.pods.filter (fun p => p.ns = ns))

/-- Outcome of `rolloutRestartDeployment` as seen by the caller's loop. -/
def envRestart (env : Env) (ns dep : String) : Except String Unit :=
  match env.restartError ns dep with
  | some e => .error e
  | none => .ok ()

/-- The restart loop of `handleExpiredSecret` (`main.go` lines 138-144):
every affected deployment is attempted; a failure is logged and the loop
continues. -/
def restartLoop (env : Env) (ns : String) (deps : List String) : List Event :=
  deps.foldl
    (fun evs dep =>
      evs ++ Event.restartCall ns dep ::
        (match envRestart env ns dep with
         | .ok _ => []
         | .error m => [Event.restartFailed ns dep m]))
    []

/-- `handleExpiredSecret` (`main.go` lines 116-147): list pods in the
secret's namespace (an error aborts only this secret's handling), collect
affected deployments, restart each.  Returns the events it emits and its
result. -/
def handleExpiredSecret (env : Env) (secret : Secret) :
    List Event × Except String Unit :=
  match envListPods env secret.ns with
  | .error e => ([Event.podListCall secret.ns], .error ("error listing pods: " ++ e))
  | .ok pods =>
    let affected := collectAffected pods secret.name
    (Event.podListCall secret.ns :: restartLoop env secret.ns affected, .ok ())

/-- The per-secret body of the loop in `checkSecrets` (`main.go` lines
71-90): skip when the expiry annotation is absent; log and skip on a format
error; on expiry, handle the secret, logging (not propagating) its error. -/
def processSecret (env : Env) (now : Int) (secret : Secret) : List Event :=
  match mapLookup secret.annotations ExpiryAnnotationKey with
  | none => []
  | some raw =>
    match isSecretExpired secret raw now with
    | .error e => [Event.formatError secret.ns secret.name e]
    | .ok false => []
    | .ok true =>
      let (evs, r) := handleExpiredSecret env secret
      Event.expiredLog secret.ns secret.name ::
        (evs ++
          match r with
          | .ok _ => []
          | .error m => [Event.handleError secret.ns secret.name m])

/-- The event stream of one cycle over a secret list (the loop at
`main.go` lines 71-90). -/
def cycleEvents (env : Env) (now : Int) (secrets : List Secret) : List Event :=
  secrets.foldl (fun acc s => acc ++ processSecret env now s) []

/-- `checkSecrets` (`main.go` lines 63-93): list all secrets (the only
fatal step), then process each in turn. -/
def checkSecrets (env : Env) (now : Int) : Except String (List Event) :=
  match env.listSecretsResult with
  | .error e => .error ("failed to list secrets: " ++ e)
  | .ok secrets => .ok (cycleEvents env now secrets)

/-- The deployments for which a restart call was issued, in order. -/
def restartTargets (evs : List Event) : List String :=
  evs.filterMap (fun e =>
    match e with
    | Event.restartCall _ dep => some dep
    | _ => none)

/-! ## Restart orchestration (`rolloutRestartDeployment`) -/

/-- Go map assignment `m[k] = v`: overwrite in place or append. -/
def mapSet : List (String × String) → String → String → List (String × String)
  | [], k, v => [(k, v)]
  | (k', v') :: rest, k, v =>
    if k' = k then (k, v) :: rest else (k', v') :: mapSet rest k v

/-- A Deployment as the restart code sees it: namespace, name, and the
pod-template annotations map (`none` models a nil Go map). -/
structure Deployment where
  ns : String
  name : String
  templateAnns : Option (List (String × String))
  deriving DecidableEq, Repr

/-- Kubernetes API errors, split by `errors.IsConflict`. -/
inductive K8sErr where
  | conflict (msg : String)
  | other (msg : String)
  deriving DecidableEq, Repr

def RestartedAtKey : String := "kubectl.kubernetes.io/restartedAt"

/-- The mutation of `rolloutRestartDeployment` (`main.go` lines 177-180):
initialize the annotations map when nil, then set the restartedAt key. -/
def setRestartedAt (dep : Deployment) (now : String) : Deployment :=
  let anns :=
    match dep.templateAnns with
    | none => []
    | some a => a
  { dep with templateAnns := some (mapSet anns RestartedAtKey now) }

/-- Lookup in a Deployment's template annotations (none when the map is nil). -/
def annLookup (dep : Deployment) (k : String) : Option String :=
  match dep.templateAnns with
  | none => none
  | some a => mapLookup a k

/-- What one attempt of the retried closure observes: the Get result, the
timestamp `time.Now().Format(time.RFC3339)` produces at this attempt, and
whether the Update hits a version conflict. -/
structure AttemptCtx where
  fetched : Except K8sErr Deployment
  now : String
  conflict : Bool

/-- One run of the closure passed to `retry.RetryOnConflict` (`main.go`
lines 170-184): Get, mutate, Update.  On success the written Deployment is
returned. -/
def restartAttempt (ctx : AttemptCtx) : Except K8sErr Deployment :=
  match ctx.fetched with
  | .error e => .error e
  | .ok dep =>
    let dep' := setRestartedAt dep ctx.now
    if ctx.conflict then .error (K8sErr.conflict "version conflict") else .ok dep'

/-- `retry.DefaultRetry.Steps` (client-go `retry.DefaultRetry`); the backoff
durations have no functional effect and are not modelled. -/
def DefaultRetrySteps : Nat := 5

/-- `retry.RetryOnConflict`: run the attempt at index `i`; stop on success
or a non-conflict error; on a conflict, retry until the step budget is
exhausted, then return the last conflict error.  Also returns the list of
successful writes. -/
def retryRun (sched : Nat → AttemptCtx) :
    Nat → Nat → K8sErr → Except K8sErr Deployment × List Deployment
  | 0, _, lastErr => (.error lastErr, [])
  | steps + 1, i, _ =>
    match restartAttempt (sched i) with
    | .ok dep => (.ok dep, [dep])
    | .error (K8sErr.conflict m) => retryRun sched steps (i + 1) (K8sErr.conflict m)
    | .error (K8sErr.other m) => (.error (K8sErr.other m), [])

/-- `rolloutRestartDeployment` (`main.go` lines 169-185) over a schedule of
per-attempt observations. -/
def rolloutRestartDeployment (sched : Nat → AttemptCtx) :
    Except K8sErr Deployment × List Deployment :=
  retryRun sched DefaultRetrySteps 0 (K8sErr.conflict "")

/-! ## The full ConsumerResolver (spec §4.2)

The provided sources hold one of the repository's three redundant variants
of this logic; the variant implementing the three-kind resolver contract
(DaemonSet owners, and the controller-template strategy over ReplicaSets
and DaemonSets listed directly) is not among them, so it is modelled from
the spec below. -/

/-- Modelled from the spec: a ReplicaSet or DaemonSet as listed directly by
the controller-template strategy — identity plus the credential names
volume-mounted by its pod template (§4.2, missing from the provided
sources). -/
structure ControllerWorkload where
  ns : String
  name : String
  templateSecretNames : List String
  deriving DecidableEq, Repr

/-- Modelled from the spec: the control-plane view the resolver queries. -/
structure ResolveCluster where
  pods : List Pod
  replicaSets : List ControllerWorkload
  daemonSets : List ControllerWorkload
  deriving DecidableEq, Repr

/-- Modelled from the spec: the resolver contract's three per-kind name
sets (§4.2). -/
structure ResolveResult where
  deployments : List String
  replicaSets : List String
  daemonSets : List String
  deriving DecidableEq, Repr

/-- Modelled from the spec: live-pod strategy, ReplicaSet controller
owners of a pod (§4.2). -/
def rsOwnersOf (p : Pod) : List String :=
  p.ownerReferences.filterMap (fun o =>
    if o.kind = "ReplicaSet" ∧ o.controller = some true then some o.name else none)

/-- Modelled from the spec: live-pod strategy, DaemonSet controller owners
of a pod (§4.2: "A DaemonSet owner yields a DaemonSet name directly"). -/
def dsOwnersOf (p : Pod) : List String :=
  p.ownerReferences.filterMap (fun o =>
    if o.kind = "DaemonSet" ∧ o.controller = some true then some o.name else none)

/-- Modelled from the spec: the pods of the namespace that volume-mount the
credential (§4.2 live-pod strategy). -/
def podsUsing (cluster : ResolveCluster) (ns credentialName : String) : List Pod :=
  (cluster.pods.filter (fun p => p.ns = ns)).filter
    (fun p => podUsesSecret p credentialName)

/-- Modelled from the spec: controller-template strategy — workloads of the
namespace whose pod template volume-mounts the credential, pods bypassed
(§4.2). -/
def templatesUsing (ws : List ControllerWorkload) (ns credentialName : String) :
    List String :=
  (ws.filter (fun w => w.ns = ns ∧ credentialName ∈ w.templateSecretNames)).map
    (fun w => w.name)

/-- Modelled from the spec: Deployment names derived from ReplicaSet names,
dropping empty derivations (§4.2). -/
def deriveDeps (names : List String) : List String :=
  names.filterMap (fun n =>
    if extractDeploymentName n = "" then none else some (extractDeploymentName n))

/-- Modelled from the spec: all ReplicaSet names either strategy finds. -/
def rsNamesFound (cluster : ResolveCluster) (ns credentialName : String) : List String :=
  (podsUsing cluster ns credentialName).flatMap rsOwnersOf
    ++ templatesUsing cluster.replicaSets ns credentialName

/-- Modelled from the spec: all DaemonSet names either strategy finds. -/
def dsNamesFound (cluster : ResolveCluster) (ns credentialName : String) : List String :=
  (podsUsing cluster ns credentialName).flatMap dsOwnersOf
    ++ templatesUsing cluster.daemonSets ns credentialName

/-- Modelled from the spec: `resolve(namespace, credentialName)` of §4.2 —
both strategies, results merged by set union per kind. -/
def resolve (cluster : ResolveCluster) (ns credentialName : String) : ResolveResult :=
  { deployments := (deriveDeps (rsNamesFound cluster ns credentialName)).dedup
    replicaSets := (rsNamesFound cluster ns credentialName).dedup
    daemonSets := (dsNamesFound cluster ns credentialName).dedup }

/-! ## Concrete inputs for witnesses and counterexamples -/

/-- A secret annotated with the negative relative value `"-3600"`. -/
def secretNegDur : Secret :=
  { ns := "default", name := "cred", annotations := [(ExpiryAnnotationKey, "-3600")],
    creationTimestamp := 0 }

/-- A secret annotated with the unparseable value `"abc"`. -/
def secretBadFmt : Secret :=
  { ns := "default", name := "cred2", annotations := [(ExpiryAnnotationKey, "abc")],
    creationTimestamp := 0 }

/-- An environment with no secrets, no pods and no injected failures. -/
def emptyEnv : Env :=
  { listSecretsResult := .ok [], pods := [],
    podListError := fun _ => none, restartError := fun _ _ => none }

/-- A pod mounting secret `cred`, controlled by ReplicaSet `app-1`. -/
def podW : Pod :=
  { ns := "default", name := "p1", volumes := [{ secretName := some "cred" }],
    ownerReferences := [{ kind := "ReplicaSet", name := "app-1", controller := some true }] }

/-- A secret that is expired at `now = 1` (relative value `"0"`). -/
def secretW : Secret :=
  { ns := "default", name := "cred", annotations := [(ExpiryAnnotationKey, "0")],
    creationTimestamp := 0 }

/-- Environment for the namespace-scoping witness. -/
def envW : Env :=
  { listSecretsResult := .ok [secretW], pods := [podW],
    podListError := fun _ => none, restartError := fun _ _ => none }

/-- Pod mounting secret `s1`, controlled by ReplicaSet `app-1`. -/
def podA : Pod :=
  { ns := "default", name := "pa", volumes := [{ secretName := some "s1" }],
    ownerReferences := [{ kind := "ReplicaSet", name := "app-1", controller := some true }] }

/-- Pod mounting secret `s2`, controlled by ReplicaSet `app-2` — a second
ReplicaSet of the same Deployment `app`. -/
def podB : Pod :=
  { ns := "default", name := "pb", volumes := [{ secretName := some "s2" }],
    ownerReferences := [{ kind := "ReplicaSet", name := "app-2", controller := some true }] }

/-- Expired secret `s1`. -/
def secretA : Secret :=
  { ns := "default", name := "s1", annotations := [(ExpiryAnnotationKey, "0")],
    creationTimestamp := 0 }

/-- Expired secret `s2`. -/
def secretB : Secret :=
  { ns := "default", name := "s2", annotations := [(ExpiryAnnotationKey, "0")],
    creationTimestamp := 0 }

/-- A cycle in which two expired secrets both implicate Deployment `app`. -/
def envDup : Env :=
  { listSecretsResult := .ok [secretA, secretB], pods := [podA, podB],
    podListError := fun _ => none, restartError := fun _ _ => none }

/-- The events of one cycle over `envDup`: Deployment `app` is restarted
once per expired secret, twice in the cycle. -/
def cycleDupEvents : List Event :=
  [Event.expiredLog "default" "s1", Event.podListCall "default",
   Event.restartCall "default" "app",
   Event.expiredLog "default" "s2", Event.podListCall "default",
   Event.restartCall "default" "app"]

/-- A Deployment with a nil template-annotations map. -/
def depW : Deployment := { ns := "default", name := "app", templateAnns := none }

/-- Restart schedule: the first attempt hits a version conflict, the second
succeeds with a later timestamp. -/
def schedW : Nat → AttemptCtx := fun i =>
  if i = 0 then { fetched := .ok depW, now := "2025-01-01T00:00:00Z", conflict := true }
  else { fetched := .ok depW, now := "2025-01-01T00:00:05Z", conflict := false }

/-- A pod mounting credential `X`, controlled by DaemonSet `logger`. -/
def podDS : Pod :=
  { ns := "default", name := "pds", volumes := [{ secretName := some "X" }],
    ownerReferences := [{ kind := "DaemonSet", name := "logger", controller := some true }] }

/-- A scaled-to-zero ReplicaSet whose template mounts credential `X`. -/
def rsZero : ControllerWorkload :=
  { ns := "default", name := "myapp-bbb", templateSecretNames := ["X"] }

/-- A DaemonSet whose template mounts credential `X`, with no live pods. -/
def dsZero : ControllerWorkload :=
  { ns := "default", name := "fluentd", templateSecretNames := ["X"] }

/-- Resolver witness cluster. -/
def clusterC1 : ResolveCluster :=
  { pods := [podDS], replicaSets := [rsZero], daemonSets := [dsZero] }


/-- A secret with no annotations at all. -/
def secretNoAnn : Secret :=
  { ns := "default", name := "plain", annotations := [], creationTimestamp := 0 }

/-- The namespace an event is about (every event names one). -/
def evNs : Event → String
  | .formatError ns _ _ => ns
  | .expiredLog ns _ => ns
  | .handleError ns _ _ => ns
  | .podListCall ns => ns
  | .restartCall ns _ => ns
  | .restartFailed ns _ _ => ns

/-! ## Helper lemmas -/

theorem foldl_append_eq {α β : Type} (f : α → List β) :
    ∀ (l : List α) (acc : List β),
      List.foldl (fun a s => a ++ f s) acc l = acc ++ (l.map f).flatten := by
  intro l
  induction l with
  | nil => intro acc; simp
  | cons x xs ih => intro acc; simp [List.foldl_cons, ih, List.append_assoc]

theorem cycleEvents_eq_join (env : Env) (now : Int) (secrets : List Secret) :
    cycleEvents env now secrets = (secrets.map (processSecret env now)).flatten := by
  unfold cycleEvents
  rw [foldl_append_eq (processSecret env now)]
  simp

theorem cycleEvents_cons (env : Env) (now : Int) (s : Secret) (rest : List Secret) :
    cycleEvents env now (s :: rest) =
      processSecret env now s ++ cycleEvents env now rest := by
  rw [cycleEvents_eq_join, cycleEvents_eq_join]
  simp

theorem mapLookup_mapSet (m : List (String × String)) (k v : String) :
    mapLookup (mapSet m k v) k = some v := by
  induction m with
  | nil => simp [mapSet, mapLookup]
  | cons p rest ih =>
    obtain ⟨k', v'⟩ := p
    by_cases h : k' = k
    · simp [mapSet, mapLookup, h]
    · simp [mapSet, mapLookup, h, ih]

/-! ## Claim theorems -/

/-- Claim C8: the Deployment-name derivation splits a ReplicaSet name on
hyphens and drops the final segment: `extractDeploymentName
"myapp-7d8f9c9c79" = "myapp"`, and any name with fewer than two
hyphen-separated segments yields the empty string, contributing no
Deployment. -/
theorem C8_extractDeploymentName_spec :
    extractDeploymentName "myapp-7d8f9c9c79" = "myapp"
    ∧ extractDeploymentName "myapp" = ""
    ∧ ∀ s : String, (splitOnChar '-' s.data).length < 2 →
        extractDeploymentName s = "" := by
  refine ⟨rfl, rfl, ?_⟩
  intro s h
  unfold extractDeploymentName
  rw [if_pos h]

theorem C8_extractDeploymentName_spec_witness :
    extractDeploymentName "kube" = "" :=
  C8_extractDeploymentName_spec.2.2 "kube" (by decide)

/-- Claim C9: a secret whose annotation map lacks the expiry key is skipped
before any expiry evaluation: its processing emits no events, hence no
pod-list (discovery) call, no restart call, and no expiry record. -/
theorem C9_missing_annotation_no_action (env : Env) (now : Int) (secret : Secret)
    (h : mapLookup secret.annotations ExpiryAnnotationKey = none) :
    processSecret env now secret = [] := by
  simp [processSecret, h]

theorem C9_missing_annotation_no_action_witness :
    processSecret emptyEnv 0 secretNoAnn = [] :=
  C9_missing_annotation_no_action emptyEnv 0 secretNoAnn rfl

/-- Claim C10: the restart mutation first initializes the pod-template
annotations map when it is nil, then sets the restartedAt key, so the
written Deployment always carries that annotation and the assignment never
faults on a missing map. -/
theorem C10_restartedAt_always_written (dep : Deployment) (now : String) :
    (setRestartedAt dep now).templateAnns ≠ none
    ∧ annLookup (setRestartedAt dep now) RestartedAtKey = some now := by
  constructor
  · cases h : dep.templateAnns <;> simp [setRestartedAt, h]
  · cases h : dep.templateAnns <;> simp [setRestartedAt, annLookup, h, mapLookup_mapSet]

/-- Claim C3: for the raw value "3600" no absolute layout parses (the
absolute formats are tried first and all fail, so no absolute
interpretation is ever used), and the evaluation returns expired exactly
when now is after the creation instant plus 3600 seconds. -/
theorem C3_relative_seconds_expiry (secret : Secret) (now : Int) :
    tryLayouts layouts "3600" = none
    ∧ (isSecretExpired secret "3600" now = Except.ok true ↔
        now > secret.creationTimestamp + 3600 * 1000000000) := by
  refine ⟨by decide, ?_⟩
  unfold isSecretExpired
  rw [show tryLayouts layouts "3600" = none by decide]
  rw [show goParseDuration ("3600" ++ "s") = some 3600000000000 by decide]
  simp

/-- Claim C2 counterexample: the raw value "-3600" (and likewise the
fractional "3.5") matches no absolute layout, yet the evaluation does not
fail with a format error — Go's ParseDuration accepts negative and
fractional values, so the relative format matches and an expired verdict is
returned. -/
theorem C2_counterexample_negative_duration :
    tryLayouts layouts "-3600" = none
    ∧ isSecretExpired secretNegDur "-3600" 1 = Except.ok true
    ∧ isSecretExpired secretNegDur "3.5" 3500000001 = Except.ok true := by
  decide

/-- Claim C2 (amended): format 4 accepts any value Go duration syntax
accepts once suffixed with "s" — in particular negative integers such as
"-3600" and fractional values do match format 4 — so exactly the raw
values on which every absolute layout and the duration parse fail yield a
format error carrying the raw value; the caller then emits one
format-error event for that credential and the cycle continues with the
remaining credentials. -/
theorem C2_format_error_skips (env : Env) (now : Int) (secret : Secret) (raw : String)
    (hlay : tryLayouts layouts raw = none)
    (hdur : goParseDuration (raw ++ "s") = none)
    (hann : mapLookup secret.annotations ExpiryAnnotationKey = some raw) :
    isSecretExpired secret raw now = Except.error ("unknown expiry format: " ++ raw)
    ∧ processSecret env now secret =
        [Event.formatError secret.ns secret.name ("unknown expiry format: " ++ raw)]
    ∧ ∀ rest : List Secret,
        cycleEvents env now (secret :: rest) =
          Event.formatError secret.ns secret.name ("unknown expiry format: " ++ raw)
            :: cycleEvents env now rest := by
  have herr : isSecretExpired secret raw now =
      Except.error ("unknown expiry format: " ++ raw) := by
    unfold isSecretExpired
    rw [hlay, hdur]
  have hproc : processSecret env now secret =
      [Event.formatError secret.ns secret.name ("unknown expiry format: " ++ raw)] := by
    simp [processSecret, hann, herr]
  refine ⟨herr, hproc, fun rest => ?_⟩
  rw [cycleEvents_cons, hproc]
  rfl

theorem C2_format_error_skips_witness :
    processSecret emptyEnv 0 secretBadFmt =
      [Event.formatError "default" "cred2" "unknown expiry format: abc"] :=
  (C2_format_error_skips emptyEnv 0 secretBadFmt "abc" (by decide) (by decide) rfl).2.1

theorem restartTargets_append (a b : List Event) :
    restartTargets (a ++ b) = restartTargets a ++ restartTargets b := by
  simp [restartTargets]

theorem restartLoop_eq_flatten (env : Env) (ns : String) (deps : List String) :
    restartLoop env ns deps =
      (deps.map (fun dep =>
        Event.restartCall ns dep ::
          (match envRestart env ns dep with
           | Except.ok _ => []
           | Except.error m => [Event.restartFailed ns dep m]))).flatten := by
  unfold restartLoop
  rw [foldl_append_eq (fun dep =>
    Event.restartCall ns dep ::
      (match envRestart env ns dep with
       | Except.ok _ => []
       | Except.error m => [Event.restartFailed ns dep m]))]
  simp

theorem restartTargets_restartLoop (env : Env) (ns : String) (deps : List String) :
    restartTargets (restartLoop env ns deps) = deps := by
  rw [restartLoop_eq_flatten]
  induction deps with
  | nil => simp [restartTargets]
  | cons d ds ih =>
    rw [List.map_cons, List.flatten_cons, restartTargets_append, ih]
    cases h : envRestart env ns d <;> simp [restartTargets, h]

theorem restartTargets_podList_cons (ns : String) (l : List Event) :
    restartTargets (Event.podListCall ns :: l) = restartTargets l := by
  simp [restartTargets]

theorem restartTargets_expiredLog_cons (a b : String) (l : List Event) :
    restartTargets (Event.expiredLog a b :: l) = restartTargets l := by
  simp [restartTargets]

theorem restartTargets_handleError_singleton (a b m : String) :
    restartTargets [Event.handleError a b m] = [] := by
  simp [restartTargets]

theorem handleExpiredSecret_targets (env : Env) (secret : Secret) (pods : List Pod)
    (h : envListPods env secret.ns = Except.ok pods) :
    restartTargets (handleExpiredSecret env secret).1 =
      collectAffected pods secret.name := by
  unfold handleExpiredSecret
  rw [h]
  rw [restartTargets_podList_cons, restartTargets_restartLoop]

theorem insertNew_nodup (acc : List String) (x : String) (h : acc.Nodup) :
    (insertNew acc x).Nodup := by
  unfold insertNew
  split
  · exact h
  · rename_i hx
    simp [List.nodup_append, h, hx]

theorem foldl_preserves_nodup {α β : Type} (g : List β → α → List β)
    (hg : ∀ acc a, acc.Nodup → (g acc a).Nodup) :
    ∀ (l : List α) (acc : List β), acc.Nodup → (List.foldl g acc l).Nodup := by
  intro l
  induction l with
  | nil => intro acc h; simpa using h
  | cons x xs ih => intro acc h; rw [List.foldl_cons]; exact ih _ (hg acc x h)

theorem collectAffected_nodup (pods : List Pod) (secretName : String) :
    (collectAffected pods secretName).Nodup := by
  unfold collectAffected
  refine foldl_preserves_nodup _ ?_ pods [] List.nodup_nil
  intro acc pod hacc
  dsimp only
  split
  · refine foldl_preserves_nodup _ ?_ pod.ownerReferences acc hacc
    intro acc2 owner h2
    dsimp only
    split
    · split
      · exact insertNew_nodup acc2 _ h2
      · exact h2
    · exact h2
  · exact hacc

theorem mem_restartLoop_ns (env : Env) (ns : String) (deps : List String) :
    ∀ e ∈ restartLoop env ns deps, evNs e = ns := by
  rw [restartLoop_eq_flatten]
  intro e he
  rw [List.mem_flatten] at he
  obtain ⟨l, hl, hel⟩ := he
  rw [List.mem_map] at hl
  obtain ⟨dep, _, rfl⟩ := hl
  cases h : envRestart env ns dep <;> rw [h] at hel <;> simp at hel
  · rcases hel with rfl | rfl <;> rfl
  · rw [hel]; rfl

theorem mem_handleExpiredSecret_ns (env : Env) (secret : Secret) :
    ∀ e ∈ (handleExpiredSecret env secret).1, evNs e = secret.ns := by
  unfold handleExpiredSecret
  cases h : envListPods env secret.ns with
  | error msg =>
    intro e he
    simp at he
    rw [he]; rfl
  | ok pods =>
    intro e he
    simp only [List.mem_cons] at he
    rcases he with rfl | he
    · rfl
    · exact mem_restartLoop_ns env secret.ns _ e he

theorem mem_processSecret_ns (env : Env) (now : Int) (secret : Secret) :
    ∀ e ∈ processSecret env now secret, evNs e = secret.ns := by
  unfold processSecret
  intro e he
  cases hann : mapLookup secret.annotations ExpiryAnnotationKey with
  | none => simp only [hann] at he; simp at he
  | some raw =>
    simp only [hann] at he
    cases hexp : isSecretExpired secret raw now with
    | error msg =>
      simp only [hexp] at he
      simp at he
      rw [he]; rfl
    | ok b =>
      cases b with
      | false => simp only [hexp] at he; simp at he
      | true =>
        simp only [hexp] at he
        rcases hhe : handleExpiredSecret env secret with ⟨evs, r⟩
        simp only [hhe] at he
        simp only [List.mem_cons, List.mem_append] at he
        rcases he with rfl | he | he
        · rfl
        · have hm := mem_handleExpiredSecret_ns env secret e
          simp only [hhe] at hm
          exact hm he
        · cases r with
          | ok u => simp at he
          | error m =>
            simp at he
            rw [he]; rfl

/-- Claim C4: the restart's fetch-mutate-write is retried on version
conflict within the fixed budget, re-fetching and reapplying the mutation
each attempt: after exactly one conflicted attempt the operation succeeds
with exactly one successful write, whose restartedAt annotation value is
the second attempt's timestamp. -/
theorem C4_conflict_retry_succeeds (sched : Nat → AttemptCtx) (d0 d1 : Deployment)
    (h0f : (sched 0).fetched = Except.ok d0) (h0c : (sched 0).conflict = true)
    (h1f : (sched 1).fetched = Except.ok d1) (h1c : (sched 1).conflict = false) :
    rolloutRestartDeployment sched =
      (Except.ok (setRestartedAt d1 (sched 1).now),
        [setRestartedAt d1 (sched 1).now])
    ∧ annLookup (setRestartedAt d1 (sched 1).now) RestartedAtKey =
        some (sched 1).now := by
  have a0 : restartAttempt (sched 0) = Except.error (K8sErr.conflict "version conflict") := by
    unfold restartAttempt
    rw [h0f, h0c]
    simp
  have a1 : restartAttempt (sched 1) = Except.ok (setRestartedAt d1 (sched 1).now) := by
    unfold restartAttempt
    rw [h1f, h1c]
    simp
  constructor
  · unfold rolloutRestartDeployment DefaultRetrySteps
    have s1 : retryRun sched 5 0 (K8sErr.conflict "") =
        retryRun sched 4 1 (K8sErr.conflict "version conflict") := by
      show (match restartAttempt (sched 0) with
        | Except.ok dep => (Except.ok dep, [dep])
        | Except.error (K8sErr.conflict m) => retryRun sched 4 1 (K8sErr.conflict m)
        | Except.error (K8sErr.other m) => (Except.error (K8sErr.other m), [])) = _
      rw [a0]
    have s2 : retryRun sched 4 1 (K8sErr.conflict "version conflict") =
        (Except.ok (setRestartedAt d1 (sched 1).now),
          [setRestartedAt d1 (sched 1).now]) := by
      show (match restartAttempt (sched 1) with
        | Except.ok dep => (Except.ok dep, [dep])
        | Except.error (K8sErr.conflict m) => retryRun sched 3 2 (K8sErr.conflict m)
        | Except.error (K8sErr.other m) => (Except.error (K8sErr.other m), [])) = _
      rw [a1]
    rw [s1, s2]
  · cases h : d1.templateAnns <;>
      simp [setRestartedAt, annLookup, h, mapLookup_mapSet]

theorem C4_conflict_retry_succeeds_witness :
    rolloutRestartDeployment schedW =
      (Except.ok (setRestartedAt depW "2025-01-01T00:00:05Z"),
        [setRestartedAt depW "2025-01-01T00:00:05Z"])
    ∧ annLookup (setRestartedAt depW "2025-01-01T00:00:05Z") RestartedAtKey =
        some "2025-01-01T00:00:05Z" :=
  C4_conflict_retry_succeeds schedW depW depW rfl rfl rfl rfl

/-- Claim C5: per-object failures are isolated: when the secret list call
succeeds, the cycle returns ok and its event stream is exactly the
concatenation of each credential's own events — a format error, discovery
failure or restart failure of one credential never alters another's
processing — and within one credential every implicated deployment receives
its restart call even when other restarts fail. -/
theorem C5_per_object_failures_isolated (env : Env) (now : Int)
    (secrets : List Secret) (h : env.listSecretsResult = Except.ok secrets) :
    checkSecrets env now = Except.ok ((secrets.map (processSecret env now)).flatten)
    ∧ ∀ (secret : Secret) (pods : List Pod),
        envListPods env secret.ns = Except.ok pods →
        restartTargets (handleExpiredSecret env secret).1 =
          collectAffected pods secret.name := by
  constructor
  · unfold checkSecrets
    simp only [h]
    rw [cycleEvents_eq_join]
  · intro secret pods hp
    exact handleExpiredSecret_targets env secret pods hp

theorem C5_per_object_failures_isolated_witness :
    checkSecrets envW 1 = Except.ok (([secretW].map (processSecret envW 1)).flatten)
    ∧ restartTargets (handleExpiredSecret envW secretW).1 =
        collectAffected [podW] secretW.name :=
  ⟨(C5_per_object_failures_isolated envW 1 [secretW] rfl).1,
   (C5_per_object_failures_isolated envW 1 [secretW] rfl).2 secretW [podW] rfl⟩

/-- Claim C6: resolution is namespace-scoped: every pod-list (discovery)
call and every restart call issued while processing a credential names that
credential's namespace, so a workload in namespace A is never implicated by
a credential in namespace B. -/
theorem C6_namespace_scoped (env : Env) (now : Int) (secret : Secret) :
    (∀ ns dep, Event.restartCall ns dep ∈ processSecret env now secret →
        ns = secret.ns)
    ∧ ∀ ns, Event.podListCall ns ∈ processSecret env now secret → ns = secret.ns := by
  constructor
  · intro ns dep h
    exact mem_processSecret_ns env now secret (Event.restartCall ns dep) h
  · intro ns h
    exact mem_processSecret_ns env now secret (Event.podListCall ns) h

theorem C6_namespace_scoped_witness :
    "default" = secretW.ns ∧ "default" = secretW.ns :=
  ⟨(C6_namespace_scoped envW 1 secretW).1 "default" "app" (by decide),
   (C6_namespace_scoped envW 1 secretW).2 "default" (by decide)⟩

/-- Claim C7 counterexample: two expired credentials in one cycle can each
implicate the same Deployment, which then receives two restart triggers in
that cycle — "at most one restart trigger per cycle" fails across
credentials. -/
theorem C7_duplicate_trigger_counterexample :
    checkSecrets envDup 1 = Except.ok cycleDupEvents
    ∧ (restartTargets cycleDupEvents).count "app" = 2 := by
  decide

/-- Claim C7 (amended): within the handling of one expired credential the
implicated-Deployment set is duplicate-free — each Deployment name receives
at most one restart trigger per credential, even when it is discoverable
through multiple pods or multiple ReplicaSets; distinct credentials of the
same cycle may each trigger the same Deployment once. -/
theorem C7_per_credential_dedup (env : Env) (now : Int) (secret : Secret) :
    (restartTargets (handleExpiredSecret env secret).1).Nodup
    ∧ (restartTargets (processSecret env now secret)).Nodup := by
  have h1 : (restartTargets (handleExpiredSecret env secret).1).Nodup := by
    cases hp : envListPods env secret.ns with
    | error msg =>
      unfold handleExpiredSecret
      rw [hp]
      simp [restartTargets]
    | ok pods =>
      rw [handleExpiredSecret_targets env secret pods hp]
      exact collectAffected_nodup pods secret.name
  refine ⟨h1, ?_⟩
  unfold processSecret
  cases hann : mapLookup secret.annotations ExpiryAnnotationKey with
  | none => simp only [hann]; simp [restartTargets]
  | some raw =>
    simp only [hann]
    cases hexp : isSecretExpired secret raw now with
    | error msg => simp only [hexp]; simp [restartTargets]
    | ok b =>
      cases b with
      | false => simp only [hexp]; simp [restartTargets]
      | true =>
        simp only [hexp]
        rcases hhe : handleExpiredSecret env secret with ⟨evs, r⟩
        have hevs : (handleExpiredSecret env secret).1 = evs := by rw [hhe]
        rw [hevs] at h1
        simp only [hhe]
        cases r with
        | ok u =>
          simpa [restartTargets_expiredLog_cons, restartTargets_append] using h1
        | error m =>
          simpa [restartTargets_expiredLog_cons, restartTargets_append,
            restartTargets_handleError_singleton] using h1

/-- Claim C1 (resolver modelled from spec §4.2): `resolve` returns three
per-kind name sets merged from the two strategies — a pod of the namespace
mounting the credential whose controller owner reference has kind DaemonSet
contributes that DaemonSet's name, and a ReplicaSet or DaemonSet of the
namespace whose own pod template volume-mounts the credential is included
with no condition on live pods (so also when scaled to zero); each returned
list is duplicate-free. -/
theorem C1_resolve_merges_strategies (cluster : ResolveCluster) (ns cred : String) :
    (∀ p ∈ cluster.pods, p.ns = ns → podUsesSecret p cred = true →
        ∀ o ∈ p.ownerReferences, o.kind = "DaemonSet" → o.controller = some true →
          o.name ∈ (resolve cluster ns cred).daemonSets)
    ∧ (∀ w ∈ cluster.replicaSets, w.ns = ns → cred ∈ w.templateSecretNames →
        w.name ∈ (resolve cluster ns cred).replicaSets)
    ∧ (∀ w ∈ cluster.daemonSets, w.ns = ns → cred ∈ w.templateSecretNames →
        w.name ∈ (resolve cluster ns cred).daemonSets)
    ∧ (resolve cluster ns cred).deployments.Nodup
    ∧ (resolve cluster ns cred).replicaSets.Nodup
    ∧ (resolve cluster ns cred).daemonSets.Nodup := by
  refine ⟨?_, ?_, ?_, ?_, ?_, ?_⟩
  · intro p hp hns huse o ho hk hc
    simp only [resolve, dsNamesFound, List.mem_dedup, List.mem_append]
    left
    rw [List.mem_flatMap]
    refine ⟨p, ?_, ?_⟩
    · simp [podsUsing, List.mem_filter, hp, hns, huse]
    · rw [dsOwnersOf, List.mem_filterMap]
      exact ⟨o, ho, by simp [hk, hc]⟩
  · intro w hw hns hcred
    simp only [resolve, rsNamesFound, List.mem_dedup, List.mem_append]
    right
    rw [templatesUsing, List.mem_map]
    refine ⟨w, ?_, rfl⟩
    simp [List.mem_filter, hw, hns, hcred]
  · intro w hw hns hcred
    simp only [resolve, dsNamesFound, List.mem_dedup, List.mem_append]
    right
    rw [templatesUsing, List.mem_map]
    refine ⟨w, ?_, rfl⟩
    simp [List.mem_filter, hw, hns, hcred]
  · simp [resolve, List.nodup_dedup]
  · simp [resolve, List.nodup_dedup]
  · simp [resolve, List.nodup_dedup]

theorem C1_resolve_merges_strategies_witness :
    "logger" ∈ (resolve clusterC1 "default" "X").daemonSets
    ∧ "myapp-bbb" ∈ (resolve clusterC1 "default" "X").replicaSets
    ∧ "fluentd" ∈ (resolve clusterC1 "default" "X").daemonSets :=
  ⟨(C1_resolve_merges_strategies clusterC1 "default" "X").1 podDS (by decide) rfl rfl
      { kind := "DaemonSet", name := "logger", controller := some true }
      (by decide) rfl rfl,
   (C1_resolve_merges_strategies clusterC1 "default" "X").2.1 rsZero (by decide) rfl
      (by decide),
   (C1_resolve_merges_strategies clusterC1 "default" "X").2.2.1 dsZero (by decide) rfl
      (by decide)⟩
